import Mathlib

/-!
Shallow embedding of the HandMouse gesture interpreter (src/HandMouse.py).

The program is a per-frame loop: each frame supplies at most one detected
hand (a set of normalized landmarks), the current wall-clock time and the
frame dimensions.  The loop mutates five module-level variables
(last_click_time, click_count, last_mouse_x, last_mouse_y,
thumbs_up_active, thumbs_up_start_time) and issues cursor moves, clicks,
double clicks and one final termination when the quit gesture is held.

Times and coordinates are modelled as exact rationals (the source uses
Python floats; all thresholds 0.3, 2.0, 0.2 are treated exactly), pixel
points as integer pairs (the source truncates with int()).  Fallible
detection is an Option: a frame with no hand carries none.
-/

/-- A normalized hand landmark, as produced by the detector: x, y in [0,1]
relative to the frame (the z coordinate is never read by this program). -/
structure Landmark where
  x : ℚ
  y : ℚ
deriving DecidableEq

/-- The landmarks of one detected hand that the program reads
(10 of the 21 MediaPipe landmarks are used). -/
structure Hand where
  thumb_tip : Landmark
  thumb_ip : Landmark
  index_tip : Landmark
  index_mcp : Landmark
  middle_tip : Landmark
  middle_mcp : Landmark
  ring_tip : Landmark
  ring_mcp : Landmark
  pinky_tip : Landmark
  pinky_mcp : Landmark
deriving DecidableEq

/-- CLICK_DISTANCE = 50 (pixels), src/HandMouse.py line 31. -/
def CLICK_DISTANCE : ℤ := 50

/-- DOUBLE_CLICK_TIMEOUT = 0.3 (seconds), src/HandMouse.py line 32. -/
def DOUBLE_CLICK_TIMEOUT : ℚ := 3 / 10

/-- THUMBS_UP_TIME = 2.0 (seconds), src/HandMouse.py line 33. -/
def THUMBS_UP_TIME : ℚ := 2

/-- MOUSE_SMOOTHING = 0.2, src/HandMouse.py line 34. -/
def MOUSE_SMOOTHING : ℚ := 1 / 5

/-- The mutable tracking variables of src/HandMouse.py lines 44-48:
ClickState is (last_click_time, click_count), CursorState is
(last_mouse_x, last_mouse_y), QuitConfirmState is
(thumbs_up_active, thumbs_up_start_time). -/
structure HMState where
  last_click_time : ℚ
  click_count : ℤ
  last_mouse_x : ℚ
  last_mouse_y : ℚ
  thumbs_up_active : Bool
  thumbs_up_start_time : ℚ
deriving DecidableEq

/-- Initial values of the tracking variables (src/HandMouse.py lines 44-48):
last_click_time = 0, click_count = 0, mouse at the screen center
(integer floor division as in Python //), quit state idle. -/
def initState (screen_w screen_h : ℤ) : HMState :=
  { last_click_time := 0
    click_count := 0
    last_mouse_x := ((Int.fdiv screen_w 2 : ℤ) : ℚ)
    last_mouse_y := ((Int.fdiv screen_h 2 : ℤ) : ℚ)
    thumbs_up_active := false
    thumbs_up_start_time := 0 }

/-- The observable actions the loop can issue on one frame:
pyautogui.moveTo, pyautogui.click, pyautogui.doubleClick, and the
return-from-main on the quit gesture. -/
inductive HMAction where
  | moveTo (x y : ℚ)
  | click
  | doubleClick
  | terminate
deriving DecidableEq

/-- Python int() truncates toward zero; used for pixel coordinates
(src/HandMouse.py lines 111-112). -/
def pyInt (q : ℚ) : ℤ :=
  if q < 0 then ⌈q⌉ else ⌊q⌋

/-- The squared Euclidean pixel distance between two points.  The source
function calculate_distance (line 50-51) returns math.hypot of the
coordinate differences, i.e. the real square root of this quantity; it is
only ever compared against CLICK_DISTANCE, so the embedding keeps the
square (an integer, hence executable) and the theorem for the pinch
threshold relates it to the real Euclidean distance. -/
def calculate_distance_sq (p1 p2 : ℤ × ℤ) : ℤ :=
  (p2.1 - p1.1) ^ 2 + (p2.2 - p1.2) ^ 2

/-- The pinch test of src/HandMouse.py line 141:
calculate_distance(thumb_pt, index_pt) < CLICK_DISTANCE, stated on
squares: hypot(d) < 50 iff dx^2 + dy^2 < 50^2 (both sides nonnegative). -/
def pinch_engaged (p1 p2 : ℤ × ℤ) : Bool :=
  decide (calculate_distance_sq p1 p2 < CLICK_DISTANCE ^ 2)

/-- thumb_pt of src/HandMouse.py line 111: (int(thumb.x * w), int(thumb.y * h)). -/
def thumbPt (hand : Hand) (w h : ℚ) : ℤ × ℤ :=
  (pyInt (hand.thumb_tip.x * w), pyInt (hand.thumb_tip.y * h))

/-- index_pt of src/HandMouse.py line 112: (int(index.x * w), int(index.y * h)). -/
def indexPt (hand : Hand) (w h : ℚ) : ℤ × ℤ :=
  (pyInt (hand.index_tip.x * w), pyInt (hand.index_tip.y * h))

/-- is_thumbs_up of src/HandMouse.py lines 53-77.  get_y scales the
normalized y by the frame height; the thumb must point up by more than
10 pixels over its IP joint and each other finger tip must sit more than
20 pixels below its MCP joint.  frame_width is accepted and unused,
exactly as in the source. -/
def is_thumbs_up (hand_landmarks : Hand) (frame_width frame_height : ℚ) : Bool :=
  let get_y : Landmark → ℚ := fun l => l.y * frame_height
  decide (get_y hand_landmarks.thumb_tip < get_y hand_landmarks.thumb_ip - 10) &&
  decide (get_y hand_landmarks.index_tip > get_y hand_landmarks.index_mcp + 20) &&
  decide (get_y hand_landmarks.middle_tip > get_y hand_landmarks.middle_mcp + 20) &&
  decide (get_y hand_landmarks.ring_tip > get_y hand_landmarks.ring_mcp + 20) &&
  decide (get_y hand_landmarks.pinky_tip > get_y hand_landmarks.pinky_mcp + 20)

/-- np.interp(x, [lo, hi], [a, b]) for a two-point table, as used on
src/HandMouse.py lines 134-135: clamp to a below lo, to b above hi,
linear interpolation in between. -/
def np_interp (x lo hi a b : ℚ) : ℚ :=
  if x ≤ lo then a
  else if hi ≤ x then b
  else a + (x - lo) * (b - a) / (hi - lo)

/-- The quit-gesture block of src/HandMouse.py lines 116-131, applied to
the boolean result of is_thumbs_up.  First thumbs-up frame: become
active and record the start time.  Already active: terminate once the
elapsed time strictly exceeds THUMBS_UP_TIME (the source returns from
main there).  Not thumbs-up: clear the active flag. -/
def thumbsUpdate (st : HMState) (isTU : Bool) (current_time : ℚ) :
    HMState × List HMAction :=
  if isTU then
    if st.thumbs_up_active = false then
      ({ st with thumbs_up_active := true, thumbs_up_start_time := current_time }, [])
    else if current_time - st.thumbs_up_start_time > THUMBS_UP_TIME then
      (st, [HMAction.terminate])
    else (st, [])
  else
    ({ st with thumbs_up_active := false }, [])

/-- The cursor-move and click block of src/HandMouse.py lines 133-160,
which the source runs only when thumbs_up_active is false.  The cursor
target comes from np.interp on the normalized thumb tip, the smoothed
position is old * (1 - MOUSE_SMOOTHING) + target * MOUSE_SMOOTHING and
is always moved to; on a pinch the debounce counter is incremented when
the gap since the last pinch is below DOUBLE_CLICK_TIMEOUT and reset to
1 otherwise, last_click_time is recorded, then a counter of 2 fires a
double click and zeroes the counter, else a gap above 0.3 fires a
single click. -/
def cursorClickUpdate (w h screen_w screen_h : ℚ) (st : HMState) (hand : Hand)
    (current_time : ℚ) : HMState × List HMAction :=
  let target_x := np_interp hand.thumb_tip.x (1 / 10) (9 / 10) 0 screen_w
  let target_y := np_interp hand.thumb_tip.y (1 / 10) (9 / 10) 0 screen_h
  let mx := st.last_mouse_x * (1 - MOUSE_SMOOTHING) + target_x * MOUSE_SMOOTHING
  let my := st.last_mouse_y * (1 - MOUSE_SMOOTHING) + target_y * MOUSE_SMOOTHING
  let st1 := { st with last_mouse_x := mx, last_mouse_y := my }
  if pinch_engaged (thumbPt hand w h) (indexPt hand w h) then
    let time_since_last_click := current_time - st1.last_click_time
    let cc := if time_since_last_click < DOUBLE_CLICK_TIMEOUT then st1.click_count + 1 else 1
    let st2 := { st1 with click_count := cc, last_click_time := current_time }
    if cc = 2 then
      ({ st2 with click_count := 0 }, [HMAction.moveTo mx my, HMAction.doubleClick])
    else if time_since_last_click > 3 / 10 then
      (st2, [HMAction.moveTo mx my, HMAction.click])
    else
      (st2, [HMAction.moveTo mx my])
  else
    (st1, [HMAction.moveTo mx my])

/-- One frame with a detected hand (the body of the for loop,
src/HandMouse.py lines 107-170): the quit-gesture block runs first; if
it terminated, nothing else runs (the source returns from main); the
cursor/click block runs only when thumbs_up_active is false afterwards. -/
def processHand (w h screen_w screen_h : ℚ) (st : HMState) (hand : Hand)
    (current_time : ℚ) : HMState × List HMAction :=
  let r := thumbsUpdate st (is_thumbs_up hand w h) current_time
  if HMAction.terminate ∈ r.2 then r
  else if r.1.thumbs_up_active then r
  else
    let r2 := cursorClickUpdate w h screen_w screen_h r.1 hand current_time
    (r2.1, r.2 ++ r2.2)

/-- One frame of the loop: when the detector reports no hand the body of
the if on src/HandMouse.py line 106 is skipped entirely, so the state is
untouched and no action is issued. -/
def processFrame (w h screen_w screen_h : ℚ) (st : HMState)
    (hand? : Option Hand) (current_time : ℚ) : HMState × List HMAction :=
  match hand? with
  | none => (st, [])
  | some hand => processHand w h screen_w screen_h st hand current_time

/-- A run over a finite list of frames, each a (time, optional hand)
pair; processing stops at the first frame that issues a termination,
as main returns there (src/HandMouse.py line 126). -/
def run (w h screen_w screen_h : ℚ) (st : HMState) :
    List (ℚ × Option Hand) → HMState × List HMAction
  | [] => (st, [])
  | (t, hand?) :: rest =>
    let r := processFrame w h screen_w screen_h st hand? t
    if HMAction.terminate ∈ r.2 then r
    else
      let r2 := run w h screen_w screen_h r.1 rest
      (r2.1, r.2 ++ r2.2)

/-- The actions of a frame that press a mouse button (single or double
click), filtered out of the full action list. -/
def clickActs (acts : List HMAction) : List HMAction :=
  acts.filter fun a =>
    match a with
    | HMAction.click => true
    | HMAction.doubleClick => true
    | _ => false

/-- One application of the exponential smoothing step of
src/HandMouse.py lines 137-138 on a single axis. -/
def smoothStep (target old : ℚ) : ℚ :=
  old * (1 - MOUSE_SMOOTHING) + target * MOUSE_SMOOTHING

/-- k applications of the smoothing step toward a fixed target. -/
def smoothIter (target x0 : ℚ) : ℕ → ℚ
  | 0 => x0
  | k + 1 => smoothStep target (smoothIter target x0 k)

/-- A concrete hand whose landmarks classify as thumbs-up at 1280x720:
thumb tip at pixel y 0 against IP at 72, all four finger tips at 360
against MCPs at 72. -/
def tuHand : Hand :=
  { thumb_tip := ⟨1 / 2, 0⟩
    thumb_ip := ⟨1 / 2, 1 / 10⟩
    index_tip := ⟨1 / 2, 1 / 2⟩
    index_mcp := ⟨1 / 2, 1 / 10⟩
    middle_tip := ⟨1 / 2, 1 / 2⟩
    middle_mcp := ⟨1 / 2, 1 / 10⟩
    ring_tip := ⟨1 / 2, 1 / 2⟩
    ring_mcp := ⟨1 / 2, 1 / 10⟩
    pinky_tip := ⟨1 / 2, 1 / 2⟩
    pinky_mcp := ⟨1 / 2, 1 / 10⟩ }

/-- A concrete hand that is not thumbs-up (thumb tip level with its IP
joint) and whose thumb and index tips coincide, so the pinch is engaged
at any frame size. -/
def pinchHand : Hand :=
  { thumb_tip := ⟨1 / 2, 1 / 2⟩
    thumb_ip := ⟨1 / 2, 1 / 2⟩
    index_tip := ⟨1 / 2, 1 / 2⟩
    index_mcp := ⟨1 / 2, 1 / 2⟩
    middle_tip := ⟨1 / 2, 1 / 2⟩
    middle_mcp := ⟨1 / 2, 1 / 2⟩
    ring_tip := ⟨1 / 2, 1 / 2⟩
    ring_mcp := ⟨1 / 2, 1 / 2⟩
    pinky_tip := ⟨1 / 2, 1 / 2⟩
    pinky_mcp := ⟨1 / 2, 1 / 2⟩ }

/-- A concrete state in the Holding phase of the quit gesture: active
since time 0, cursor at the origin, no click history. -/
def holdingSt : HMState :=
  { last_click_time := 0
    click_count := 0
    last_mouse_x := 0
    last_mouse_y := 0
    thumbs_up_active := true
    thumbs_up_start_time := 0 }

/-- A concrete state right after a double click fired at time 1: the
counter was zeroed and last_click_time is 1. -/
def recentClickSt : HMState :=
  { last_click_time := 1
    click_count := 0
    last_mouse_x := 0
    last_mouse_y := 0
    thumbs_up_active := false
    thumbs_up_start_time := 0 }

/-
Helper lemmas shared by several claim theorems.
-/

/-- A frame with no thumbs-up hand reduces to the cursor/click block run
on the state with the active flag cleared (lines 130-131 then 133). -/
theorem processFrame_not_thumbs_up (w h sw sh : ℚ) (st : HMState) (hand : Hand) (t : ℚ)
    (hnt : is_thumbs_up hand w h = false) :
    processFrame w h sw sh st (some hand) t =
      cursorClickUpdate w h sw sh { st with thumbs_up_active := false } hand t := by
  simp [processFrame, processHand, thumbsUpdate, hnt]

/-- The cursor/click block never issues a termination. -/
theorem terminate_notin_cursorClickUpdate (w h sw sh : ℚ) (st : HMState) (hand : Hand)
    (t : ℚ) : HMAction.terminate ∉ (cursorClickUpdate w h sw sh st hand t).2 := by
  simp only [cursorClickUpdate]
  split_ifs <;> simp

/-- The cursor/click block leaves the quit-confirm fields untouched. -/
theorem cursorClickUpdate_quit_fields (w h sw sh : ℚ) (st : HMState) (hand : Hand) (t : ℚ) :
    (cursorClickUpdate w h sw sh st hand t).1.thumbs_up_active = st.thumbs_up_active ∧
    (cursorClickUpdate w h sw sh st hand t).1.thumbs_up_start_time = st.thumbs_up_start_time := by
  simp only [cursorClickUpdate]
  split_ifs <;> simp

/-- The cursor/click block always applies exactly one smoothing step to
each cursor axis, whatever the click branch does. -/
theorem cursorClickUpdate_mouse (w h sw sh : ℚ) (st : HMState) (hand : Hand) (t : ℚ) :
    (cursorClickUpdate w h sw sh st hand t).1.last_mouse_x =
      smoothStep (np_interp hand.thumb_tip.x (1 / 10) (9 / 10) 0 sw) st.last_mouse_x ∧
    (cursorClickUpdate w h sw sh st hand t).1.last_mouse_y =
      smoothStep (np_interp hand.thumb_tip.y (1 / 10) (9 / 10) 0 sh) st.last_mouse_y := by
  simp only [cursorClickUpdate, smoothStep]
  split_ifs <;> simp

/-- Claim C4: a frame with no detected hand performs no state transition
at all: CursorState, ClickState and QuitConfirmState (including the
thumbs_up_active flag and thumbs_up_start_time) are all left exactly as
they were and no action is emitted, so in particular a no-hand frame
does not reset the quit-confirm timer to Idle. -/
theorem no_hand_frame_no_transition (w h sw sh : ℚ) (st : HMState) (t : ℚ) :
    processFrame w h sw sh st none t = (st, []) ∧
    (processFrame w h sw sh st none t).1.thumbs_up_active = st.thumbs_up_active ∧
    (processFrame w h sw sh st none t).1.thumbs_up_start_time = st.thumbs_up_start_time ∧
    (processFrame w h sw sh st none t).1.last_mouse_x = st.last_mouse_x ∧
    (processFrame w h sw sh st none t).1.last_mouse_y = st.last_mouse_y ∧
    (processFrame w h sw sh st none t).1.last_click_time = st.last_click_time ∧
    (processFrame w h sw sh st none t).1.click_count = st.click_count ∧
    (processFrame w h sw sh st none t).2 = [] :=
  ⟨rfl, rfl, rfl, rfl, rfl, rfl, rfl, rfl⟩

/-- Claim C5: thumbs-up classification is a pure per-frame function of
the landmark positions that returns true exactly when the thumb tip
pixel y is more than 10 below (numerically less than) the thumb IP
joint pixel y, and each of index, middle, ring and pinky has its tip
pixel y more than 20 greater than its own MCP joint pixel y; with all
five sub-conditions satisfied it returns true, and negating any single
sub-condition makes it return false. -/
theorem is_thumbs_up_iff (hand : Hand) (w h : ℚ) :
    is_thumbs_up hand w h = true ↔
      (hand.thumb_tip.y * h < hand.thumb_ip.y * h - 10 ∧
       hand.index_tip.y * h > hand.index_mcp.y * h + 20 ∧
       hand.middle_tip.y * h > hand.middle_mcp.y * h + 20 ∧
       hand.ring_tip.y * h > hand.ring_mcp.y * h + 20 ∧
       hand.pinky_tip.y * h > hand.pinky_mcp.y * h + 20) := by
  simp [is_thumbs_up, and_assoc]

/-- Claim C7: the cursor target remap sends normalized coordinate 0.1 to
screen coordinate 0, 0.9 to the full screen extent, 0.5 to half of it,
interpolates linearly in between, clamps every input outside [0.1, 0.9]
to the corresponding edge, and so always lands in [0, screen extent]. -/
theorem cursor_target_remap (screen_w : ℚ) (hsw : 0 ≤ screen_w) (x : ℚ) :
    np_interp (1 / 10) (1 / 10) (9 / 10) 0 screen_w = 0 ∧
    np_interp (9 / 10) (1 / 10) (9 / 10) 0 screen_w = screen_w ∧
    np_interp (1 / 2) (1 / 10) (9 / 10) 0 screen_w = screen_w / 2 ∧
    (1 / 10 ≤ x → x ≤ 9 / 10 →
      np_interp x (1 / 10) (9 / 10) 0 screen_w = (x - 1 / 10) * screen_w / (8 / 10)) ∧
    (x ≤ 1 / 10 → np_interp x (1 / 10) (9 / 10) 0 screen_w = 0) ∧
    (9 / 10 ≤ x → np_interp x (1 / 10) (9 / 10) 0 screen_w = screen_w) ∧
    0 ≤ np_interp x (1 / 10) (9 / 10) 0 screen_w ∧
    np_interp x (1 / 10) (9 / 10) 0 screen_w ≤ screen_w := by
  refine ⟨by norm_num [np_interp], by norm_num [np_interp], ?_, ?_, ?_, ?_, ?_, ?_⟩
  · norm_num [np_interp]
    ring
  · intro hx1 hx2
    unfold np_interp
    split_ifs with hb1 hb2
    · have hx : x = 1 / 10 := le_antisymm hb1 hx1
      subst hx
      norm_num
    · have hx : x = 9 / 10 := le_antisymm hx2 hb2
      subst hx
      norm_num
    · ring
  · intro hle
    unfold np_interp
    rw [if_pos hle]
  · intro hge
    unfold np_interp
    rw [if_neg (by linarith), if_pos hge]
  · unfold np_interp
    split_ifs with hb1 hb2
    · exact le_refl 0
    · exact hsw
    · have hxa : (0 : ℚ) ≤ x - 1 / 10 := by linarith
      have e : (0 : ℚ) + (x - 1 / 10) * (screen_w - 0) / (9 / 10 - 1 / 10) =
          (x - 1 / 10) * screen_w * (5 / 4) := by ring
      rw [e]
      nlinarith [mul_nonneg hxa hsw]
  · unfold np_interp
    split_ifs with hb1 hb2
    · exact hsw
    · exact le_refl screen_w
    · have hxa : (0 : ℚ) ≤ x - 1 / 10 := by linarith
      have hxb : x - 1 / 10 ≤ 8 / 10 := by linarith
      have hcap := mul_le_mul_of_nonneg_right hxb hsw
      have e : (0 : ℚ) + (x - 1 / 10) * (screen_w - 0) / (9 / 10 - 1 / 10) =
          (x - 1 / 10) * screen_w * (5 / 4) := by ring
      rw [e]
      nlinarith [hcap]

/-- Claim C8: for all thumb-tip and index-tip pixel positions the pinch
is classified as engaged exactly when the Euclidean distance between
them is strictly below 50 pixels; at distance exactly 50 (witnessed by
the 30-40-50 right triangle) the pinch is not engaged. -/
theorem pinch_engaged_iff_dist_lt_50 (p1 p2 : ℤ × ℤ) :
    (pinch_engaged p1 p2 = true ↔
      Real.sqrt ((calculate_distance_sq p1 p2 : ℤ) : ℝ) < 50) ∧
    pinch_engaged (0, 0) (30, 40) = false ∧
    Real.sqrt ((calculate_distance_sq (0, 0) (30, 40) : ℤ) : ℝ) = 50 := by
  refine ⟨?_, by norm_num [pinch_engaged, calculate_distance_sq, CLICK_DISTANCE], ?_⟩
  · rw [Real.sqrt_lt' (by norm_num : (0 : ℝ) < 50)]
    have hcast : (((calculate_distance_sq p1 p2 : ℤ) : ℝ) < 50 ^ 2) ↔
        calculate_distance_sq p1 p2 < 2500 := by
      rw [show ((50 : ℝ) ^ 2) = ((2500 : ℤ) : ℝ) by norm_num]
      exact Int.cast_lt
    rw [hcast]
    simp [pinch_engaged, CLICK_DISTANCE]
  · have hv : calculate_distance_sq (0, 0) (30, 40) = 2500 := by
      norm_num [calculate_distance_sq]
    rw [hv]
    rw [show (((2500 : ℤ) : ℝ)) = 50 ^ 2 by norm_num]
    exact Real.sqrt_sq (by norm_num)

/-- Starting the smoothing iteration one step in is the same as iterating
one more time. -/
theorem smoothIter_shift (target x0 : ℚ) (k : ℕ) :
    smoothIter target (smoothStep target x0) k = smoothIter target x0 (k + 1) := by
  induction k with
  | zero => rfl
  | succ n ih => simp [smoothIter, ih]

/-- The distance to the target contracts by exactly 4/5 per smoothing
step. -/
theorem smoothIter_error (target x0 : ℚ) (k : ℕ) :
    smoothIter target x0 k - target = (4 / 5) ^ k * (x0 - target) := by
  induction k with
  | zero => simp [smoothIter]
  | succ n ih =>
    have e : smoothIter target x0 (n + 1) - target =
        (4 / 5) * (smoothIter target x0 n - target) := by
      show smoothStep target (smoothIter target x0 n) - target =
        (4 / 5) * (smoothIter target x0 n - target)
      unfold smoothStep MOUSE_SMOOTHING
      ring
    rw [e, ih, pow_succ]
    ring

/-- Over a list of frames that all carry the same non-thumbs-up hand,
the cursor x coordinate is the smoothing iteration applied once per
frame to the starting coordinate. -/
theorem run_mouse_x (w h sw sh : ℚ) (hand : Hand) (hnt : is_thumbs_up hand w h = false) :
    ∀ (ts : List ℚ) (st : HMState),
      (run w h sw sh st (ts.map fun u => (u, some hand))).1.last_mouse_x =
        smoothIter (np_interp hand.thumb_tip.x (1 / 10) (9 / 10) 0 sw)
          st.last_mouse_x ts.length := by
  intro ts
  induction ts with
  | nil =>
    intro st
    simp [run, smoothIter]
  | cons t rest ih =>
    intro st
    rw [List.map_cons]
    simp only [run]
    rw [processFrame_not_thumbs_up w h sw sh st hand t hnt]
    rw [if_neg (terminate_notin_cursorClickUpdate w h sw sh _ hand t)]
    dsimp only
    rw [ih]
    rw [(cursorClickUpdate_mouse w h sw sh { st with thumbs_up_active := false } hand t).1]
    simpa [List.length_cons] using
      smoothIter_shift (np_interp hand.thumb_tip.x (1 / 10) (9 / 10) 0 sw)
        st.last_mouse_x rest.length

/-- Claim C6: on every frame with a hand that is not classified
thumbs-up the smoothed cursor is updated by exactly
new = old * 0.8 + target * 0.2 on each axis; iterated toward a fixed
target the smoothed value matches the smoothing iteration frame by
frame, the target itself is a fixed point (steady state), the signed
error after k frames is exactly (4/5)^k times the initial error (so the
approach is monotone and one-sided), and the absolute error never
increases from one frame to the next. -/
theorem cursor_smoothing_ema
    (w h sw sh : ℚ) (hand : Hand) (hnt : is_thumbs_up hand w h = false)
    (st : HMState) (t : ℚ) (ts : List ℚ) (target x0 : ℚ) (k : ℕ) :
    (processFrame w h sw sh st (some hand) t).1.last_mouse_x
        = st.last_mouse_x * (1 - MOUSE_SMOOTHING)
          + np_interp hand.thumb_tip.x (1 / 10) (9 / 10) 0 sw * MOUSE_SMOOTHING ∧
    (processFrame w h sw sh st (some hand) t).1.last_mouse_y
        = st.last_mouse_y * (1 - MOUSE_SMOOTHING)
          + np_interp hand.thumb_tip.y (1 / 10) (9 / 10) 0 sh * MOUSE_SMOOTHING ∧
    (run w h sw sh st (ts.map fun u => (u, some hand))).1.last_mouse_x
        = smoothIter (np_interp hand.thumb_tip.x (1 / 10) (9 / 10) 0 sw)
            st.last_mouse_x ts.length ∧
    smoothIter target target k = target ∧
    smoothIter target x0 k - target = (4 / 5) ^ k * (x0 - target) ∧
    |smoothIter target x0 (k + 1) - target| ≤ |smoothIter target x0 k - target| := by
  refine ⟨?_, ?_, run_mouse_x w h sw sh hand hnt ts st, ?_, smoothIter_error target x0 k, ?_⟩
  · rw [processFrame_not_thumbs_up w h sw sh st hand t hnt]
    exact (cursorClickUpdate_mouse w h sw sh { st with thumbs_up_active := false } hand t).1
  · rw [processFrame_not_thumbs_up w h sw sh st hand t hnt]
    exact (cursorClickUpdate_mouse w h sw sh { st with thumbs_up_active := false } hand t).2
  · have := smoothIter_error target target k
    simp at this
    linarith [this]
  · rw [smoothIter_error target x0 k, smoothIter_error target x0 (k + 1)]
    rw [abs_mul, abs_mul]
    have h1 : |(4 / 5 : ℚ) ^ (k + 1)| = |(4 / 5 : ℚ) ^ k| * (4 / 5) := by
      rw [pow_succ, abs_mul]
      norm_num
    rw [h1]
    have h2 : (0 : ℚ) ≤ |(4 / 5 : ℚ) ^ k| * |x0 - target| :=
      mul_nonneg (abs_nonneg _) (abs_nonneg _)
    nlinarith [h2]

/-- Claim C3: on every frame processed while the quit-confirm state is
Holding (the active flag set, the hand still classified thumbs-up and
the 2.0 second threshold not yet passed) the interpreter emits no
cursor-move and no click action and leaves the whole state, in
particular CursorState and ClickState, unchanged. -/
theorem holding_frame_suspends_cursor_and_click
    (w h sw sh : ℚ) (hand : Hand) (htu : is_thumbs_up hand w h = true)
    (st : HMState) (ha : st.thumbs_up_active = true)
    (t : ℚ) (hel : t - st.thumbs_up_start_time ≤ THUMBS_UP_TIME) :
    processFrame w h sw sh st (some hand) t = (st, []) := by
  have hng : ¬(t - st.thumbs_up_start_time > THUMBS_UP_TIME) := not_lt.mpr hel
  simp [processFrame, processHand, thumbsUpdate, htu, ha, hng]

/-- Claim C9: a frame whose hand is present but not classified thumbs-up
always drops the quit-confirm state back to Idle, and a later thumbs-up
frame restarts the 2.0 second accumulation at its own timestamp (and
emits nothing on that frame), whatever hold time had accumulated
before: there are no hysteresis or grace frames. -/
theorem non_thumbs_up_resets_quit_timer
    (w h sw sh : ℚ) (hand1 hand2 : Hand)
    (hnt : is_thumbs_up hand1 w h = false) (htu : is_thumbs_up hand2 w h = true)
    (st : HMState) (t tNext : ℚ) :
    (processFrame w h sw sh st (some hand1) t).1.thumbs_up_active = false ∧
    (processFrame w h sw sh (processFrame w h sw sh st (some hand1) t).1
        (some hand2) tNext).1.thumbs_up_active = true ∧
    (processFrame w h sw sh (processFrame w h sw sh st (some hand1) t).1
        (some hand2) tNext).1.thumbs_up_start_time = tNext ∧
    (processFrame w h sw sh (processFrame w h sw sh st (some hand1) t).1
        (some hand2) tNext).2 = [] := by
  have h1 := processFrame_not_thumbs_up w h sw sh st hand1 t hnt
  set stA := (processFrame w h sw sh st (some hand1) t).1 with hstA
  have hA : stA.thumbs_up_active = false := by
    rw [hstA, h1]
    exact (cursorClickUpdate_quit_fields w h sw sh
      { st with thumbs_up_active := false } hand1 t).1
  refine ⟨hA, ?_, ?_, ?_⟩ <;>
    simp [processFrame, processHand, thumbsUpdate, htu, hA]

/-- A pinch frame (hand present, not thumbs-up) whose gap since the last
recorded click strictly exceeds the 0.3s timeout: the counter resets to
1, the click time is recorded and exactly one single click fires. -/
theorem processFrame_pinch_fresh (w h sw sh : ℚ) (hand : Hand) (st : HMState) (t : ℚ)
    (hnt : is_thumbs_up hand w h = false)
    (hp : pinch_engaged (thumbPt hand w h) (indexPt hand w h) = true)
    (hgap : DOUBLE_CLICK_TIMEOUT < t - st.last_click_time) :
    clickActs (processFrame w h sw sh st (some hand) t).2 = [HMAction.click] ∧
    (processFrame w h sw sh st (some hand) t).1.click_count = 1 ∧
    (processFrame w h sw sh st (some hand) t).1.last_click_time = t := by
  rw [processFrame_not_thumbs_up w h sw sh st hand t hnt]
  have h1 : ¬(t - st.last_click_time < DOUBLE_CLICK_TIMEOUT) := not_lt.mpr (le_of_lt hgap)
  have h2 : (3 : ℚ) / 10 < t - st.last_click_time := by
    have h3 := hgap
    rw [DOUBLE_CLICK_TIMEOUT] at h3
    exact h3
  simp [cursorClickUpdate, hp, h1, h2, clickActs]

/-- A pinch frame whose gap is inside the timeout while the counter
stands at 1: the counter reaches 2, a double click fires and the
counter is reset to 0. -/
theorem processFrame_pinch_double (w h sw sh : ℚ) (hand : Hand) (st : HMState) (t : ℚ)
    (hnt : is_thumbs_up hand w h = false)
    (hp : pinch_engaged (thumbPt hand w h) (indexPt hand w h) = true)
    (hcc : st.click_count = 1)
    (hgap : t - st.last_click_time < DOUBLE_CLICK_TIMEOUT) :
    clickActs (processFrame w h sw sh st (some hand) t).2 = [HMAction.doubleClick] ∧
    (processFrame w h sw sh st (some hand) t).1.click_count = 0 ∧
    (processFrame w h sw sh st (some hand) t).1.last_click_time = t := by
  rw [processFrame_not_thumbs_up w h sw sh st hand t hnt]
  simp [cursorClickUpdate, hp, hcc, hgap, clickActs]

/-- Claim C10: a third pinch frame arriving within the 0.3s timeout of a
double-click-firing pinch (counter at 0) emits no click action at all:
the counter becomes 1, the gap is below the immediate-click guard so
neither firing branch is taken; last_click_time and the counter are the
click-state updates, and the quit-confirm fields are untouched. -/
theorem rapid_third_pinch_fires_nothing
    (w h sw sh : ℚ) (hand : Hand) (st : HMState) (t : ℚ)
    (hnt : is_thumbs_up hand w h = false)
    (hp : pinch_engaged (thumbPt hand w h) (indexPt hand w h) = true)
    (hcc : st.click_count = 0)
    (hgap : t - st.last_click_time < DOUBLE_CLICK_TIMEOUT) :
    clickActs (processFrame w h sw sh st (some hand) t).2 = [] ∧
    (processFrame w h sw sh st (some hand) t).1.click_count = 1 ∧
    (processFrame w h sw sh st (some hand) t).1.last_click_time = t ∧
    (processFrame w h sw sh st (some hand) t).1.thumbs_up_active = false := by
  rw [processFrame_not_thumbs_up w h sw sh st hand t hnt]
  have h3 : ¬((3 : ℚ) / 10 < t - st.last_click_time) := by
    have h4 := hgap
    rw [DOUBLE_CLICK_TIMEOUT] at h4
    exact not_lt.mpr (le_of_lt h4)
  simp [cursorClickUpdate, hp, hcc, hgap, h3, clickActs]

/-- Claim C2: from a state with no pinch history (last click time 0),
a pinch frame fires exactly one single click and sets the counter to 1;
a second pinch within the 0.3s timeout fires exactly one double click
on top of it (the single click of the first frame is not replaced) and
resets the counter to 0; a third pinch whose gap exceeds the timeout
fires a fresh single click and sets the counter to 1. -/
theorem click_debounce_single_double_single
    (w h sw sh : ℚ) (hand : Hand)
    (hnt : is_thumbs_up hand w h = false)
    (hp : pinch_engaged (thumbPt hand w h) (indexPt hand w h) = true)
    (st : HMState) (hhist : st.last_click_time = 0)
    (t0 t1 t2 : ℚ)
    (h0 : DOUBLE_CLICK_TIMEOUT < t0)
    (h1 : t1 - t0 < DOUBLE_CLICK_TIMEOUT)
    (h2 : DOUBLE_CLICK_TIMEOUT < t2 - t1) :
    clickActs (processFrame w h sw sh st (some hand) t0).2 = [HMAction.click] ∧
    (processFrame w h sw sh st (some hand) t0).1.click_count = 1 ∧
    clickActs (processFrame w h sw sh (processFrame w h sw sh st (some hand) t0).1
        (some hand) t1).2 = [HMAction.doubleClick] ∧
    (processFrame w h sw sh (processFrame w h sw sh st (some hand) t0).1
        (some hand) t1).1.click_count = 0 ∧
    clickActs (processFrame w h sw sh (processFrame w h sw sh (processFrame w h sw sh st
        (some hand) t0).1 (some hand) t1).1 (some hand) t2).2 = [HMAction.click] ∧
    (processFrame w h sw sh (processFrame w h sw sh (processFrame w h sw sh st
        (some hand) t0).1 (some hand) t1).1 (some hand) t2).1.click_count = 1 := by
  have hg0 : DOUBLE_CLICK_TIMEOUT < t0 - st.last_click_time := by
    rw [hhist]
    simpa using h0
  obtain ⟨a0, c0, l0⟩ := processFrame_pinch_fresh w h sw sh hand st t0 hnt hp hg0
  have hg1 : t1 - (processFrame w h sw sh st (some hand) t0).1.last_click_time <
      DOUBLE_CLICK_TIMEOUT := by
    rw [l0]
    exact h1
  obtain ⟨a1, c1, l1⟩ := processFrame_pinch_double w h sw sh hand
    (processFrame w h sw sh st (some hand) t0).1 t1 hnt hp c0 hg1
  have hg2 : DOUBLE_CLICK_TIMEOUT < t2 - (processFrame w h sw sh
      (processFrame w h sw sh st (some hand) t0).1 (some hand) t1).1.last_click_time := by
    rw [l1]
    exact h2
  obtain ⟨a2, c2, l2⟩ := processFrame_pinch_fresh w h sw sh hand
    (processFrame w h sw sh (processFrame w h sw sh st (some hand) t0).1
      (some hand) t1).1 t2 hnt hp hg2
  exact ⟨a0, c0, a1, c1, a2, c2⟩

/-- While the quit state is Holding and every frame still classifies
thumbs-up, a run emits exactly one termination, at the first frame
whose time exceeds the recorded start time by strictly more than
THUMBS_UP_TIME, and no action at all before that. -/
theorem run_holding_actions (w h sw sh : ℚ) (hand : Hand)
    (htu : is_thumbs_up hand w h = true) :
    ∀ (l : List ℚ) (st : HMState), st.thumbs_up_active = true →
      (run w h sw sh st (l.map fun u => (u, some hand))).2 =
        (if l.any (fun u => decide (THUMBS_UP_TIME < u - st.thumbs_up_start_time))
         then [HMAction.terminate] else []) := by
  intro l
  induction l with
  | nil =>
    intro st ha
    simp [run]
  | cons t rest ih =>
    intro st ha
    rw [List.map_cons]
    simp only [run]
    by_cases hc : THUMBS_UP_TIME < t - st.thumbs_up_start_time
    · have hframe : processFrame w h sw sh st (some hand) t = (st, [HMAction.terminate]) := by
        simp [processFrame, processHand, thumbsUpdate, htu, ha, hc]
      rw [hframe]
      simp [hc]
    · have hframe : processFrame w h sw sh st (some hand) t = (st, []) := by
        simp [processFrame, processHand, thumbsUpdate, htu, ha, hc]
      rw [hframe]
      rw [if_neg (by simp : ¬ HMAction.terminate ∈ ([] : List HMAction))]
      dsimp only
      rw [List.nil_append]
      rw [ih st ha]
      simp [hc]

/-- Claim C1 counterexample: entering Holding at time 0 and presenting
the same thumbs-up hand again at time 2 gives a frame whose elapsed
time since entering Holding is exactly the 2.0 second threshold (so at
least 2.0 seconds, as the claim requires), yet the run emits no
termination at all: src/HandMouse.py line 121 compares with a strict
greater-than. -/
theorem quit_exact_threshold_counterexample :
    is_thumbs_up tuHand 1280 720 = true ∧
    (run 1280 720 1920 1080 (initState 1920 1080)
        [((0 : ℚ), some tuHand)]).1.thumbs_up_active = true ∧
    (run 1280 720 1920 1080 (initState 1920 1080)
        [((0 : ℚ), some tuHand)]).1.thumbs_up_start_time = 0 ∧
    (2 : ℚ) - 0 ≥ THUMBS_UP_TIME ∧
    (run 1280 720 1920 1080 (initState 1920 1080)
        [((0 : ℚ), some tuHand), ((2 : ℚ), some tuHand)]).2 = [] := by
  refine ⟨by norm_num [is_thumbs_up, tuHand], ?_, ?_, by norm_num [THUMBS_UP_TIME], ?_⟩ <;>
    norm_num [run, processFrame, processHand, thumbsUpdate, is_thumbs_up,
      initState, THUMBS_UP_TIME, tuHand]

/-- Claim C1 (amended): for every run of the quit-confirm state machine
that is in state Holding with thumbs-up still classified true on every
frame, the interpreter emits exactly one termination request, on the
first frame whose elapsed time since entering Holding STRICTLY exceeds
2.0 seconds, and never emits any action on an earlier frame; stated for
every prefix of the frame-time list, so no frame before the first
strict crossing emits anything and every prefix containing a crossing
emits the single termination. -/
theorem quit_confirm_strict_threshold
    (w h sw sh : ℚ) (hand : Hand) (htu : is_thumbs_up hand w h = true)
    (st : HMState) (ha : st.thumbs_up_active = true) (ts : List ℚ) (i : ℕ) :
    (run w h sw sh st ((ts.take i).map fun u => (u, some hand))).2 =
      (if (ts.take i).any (fun u => decide (THUMBS_UP_TIME < u - st.thumbs_up_start_time))
       then [HMAction.terminate] else []) :=
  run_holding_actions w h sw sh hand htu (ts.take i) st ha

/-- Witness for the amended claim C1 theorem: a concrete Holding state
with start time 0 and frames at times 1 and 3; the frame at time 3 is
the first strictly past the threshold and the run emits exactly the one
termination. -/
theorem quit_confirm_strict_threshold_witness :
    is_thumbs_up tuHand 1280 720 = true ∧
    holdingSt.thumbs_up_active = true ∧
    (run 1280 720 1920 1080 holdingSt
        ((([1, 3] : List ℚ).take 2).map fun u => (u, some tuHand))).2 =
      (if (([1, 3] : List ℚ).take 2).any
          (fun u => decide (THUMBS_UP_TIME < u - holdingSt.thumbs_up_start_time))
       then [HMAction.terminate] else []) :=
  ⟨by norm_num [is_thumbs_up, tuHand], rfl,
    quit_confirm_strict_threshold 1280 720 1920 1080 tuHand
      (by norm_num [is_thumbs_up, tuHand]) holdingSt rfl [1, 3] 2⟩

/-- Witness for the claim C3 theorem: the Holding state with start time
0 and a thumbs-up frame at time 1 (elapsed 1 second, below threshold)
is left completely unchanged and emits nothing. -/
theorem holding_frame_suspends_witness :
    is_thumbs_up tuHand 1280 720 = true ∧
    holdingSt.thumbs_up_active = true ∧
    (1 : ℚ) - holdingSt.thumbs_up_start_time ≤ THUMBS_UP_TIME ∧
    processFrame 1280 720 1920 1080 holdingSt (some tuHand) 1 = (holdingSt, []) :=
  ⟨by norm_num [is_thumbs_up, tuHand], rfl,
    by norm_num [holdingSt, THUMBS_UP_TIME],
    holding_frame_suspends_cursor_and_click 1280 720 1920 1080 tuHand
      (by norm_num [is_thumbs_up, tuHand]) holdingSt rfl 1
      (by norm_num [holdingSt, THUMBS_UP_TIME])⟩

/-- Witness for the claim C7 theorem at screen width 1920 and input
0.5. -/
theorem cursor_target_remap_witness :
    (0 : ℚ) ≤ 1920 ∧
    (np_interp (1 / 10) (1 / 10) (9 / 10) 0 1920 = 0 ∧
     np_interp (9 / 10) (1 / 10) (9 / 10) 0 1920 = 1920 ∧
     np_interp (1 / 2) (1 / 10) (9 / 10) 0 1920 = 1920 / 2 ∧
     (1 / 10 ≤ (1 : ℚ) / 2 → (1 : ℚ) / 2 ≤ 9 / 10 →
       np_interp (1 / 2) (1 / 10) (9 / 10) 0 1920 = ((1 : ℚ) / 2 - 1 / 10) * 1920 / (8 / 10)) ∧
     ((1 : ℚ) / 2 ≤ 1 / 10 → np_interp (1 / 2) (1 / 10) (9 / 10) 0 1920 = 0) ∧
     ((9 : ℚ) / 10 ≤ 1 / 2 → np_interp (1 / 2) (1 / 10) (9 / 10) 0 1920 = 1920) ∧
     0 ≤ np_interp (1 / 2) (1 / 10) (9 / 10) 0 1920 ∧
     np_interp (1 / 2) (1 / 10) (9 / 10) 0 1920 ≤ 1920) :=
  ⟨by norm_num, cursor_target_remap 1920 (by norm_num) (1 / 2)⟩

/-- Witness for the claim C9 theorem: a non-thumbs-up frame at time 1
from the idle initial state, then a thumbs-up frame at time 2. -/
theorem non_thumbs_up_resets_witness :
    is_thumbs_up pinchHand 1280 720 = false ∧
    is_thumbs_up tuHand 1280 720 = true ∧
    ((processFrame 1280 720 1920 1080 (initState 1920 1080)
        (some pinchHand) 1).1.thumbs_up_active = false ∧
     (processFrame 1280 720 1920 1080 (processFrame 1280 720 1920 1080 (initState 1920 1080)
        (some pinchHand) 1).1 (some tuHand) 2).1.thumbs_up_active = true ∧
     (processFrame 1280 720 1920 1080 (processFrame 1280 720 1920 1080 (initState 1920 1080)
        (some pinchHand) 1).1 (some tuHand) 2).1.thumbs_up_start_time = 2 ∧
     (processFrame 1280 720 1920 1080 (processFrame 1280 720 1920 1080 (initState 1920 1080)
        (some pinchHand) 1).1 (some tuHand) 2).2 = []) :=
  ⟨by norm_num [is_thumbs_up, pinchHand], by norm_num [is_thumbs_up, tuHand],
    non_thumbs_up_resets_quit_timer 1280 720 1920 1080 pinchHand tuHand
      (by norm_num [is_thumbs_up, pinchHand]) (by norm_num [is_thumbs_up, tuHand])
      (initState 1920 1080) 1 2⟩

/-- Witness for the claim C10 theorem: the state just after a double
click at time 1 (counter 0) and a pinch frame at time 1.1, inside the
timeout. -/
theorem rapid_third_pinch_witness :
    is_thumbs_up pinchHand 1280 720 = false ∧
    pinch_engaged (thumbPt pinchHand 1280 720) (indexPt pinchHand 1280 720) = true ∧
    recentClickSt.click_count = 0 ∧
    (11 : ℚ) / 10 - recentClickSt.last_click_time < DOUBLE_CLICK_TIMEOUT ∧
    (clickActs (processFrame 1280 720 1920 1080 recentClickSt
        (some pinchHand) (11 / 10)).2 = [] ∧
     (processFrame 1280 720 1920 1080 recentClickSt
        (some pinchHand) (11 / 10)).1.click_count = 1 ∧
     (processFrame 1280 720 1920 1080 recentClickSt
        (some pinchHand) (11 / 10)).1.last_click_time = 11 / 10 ∧
     (processFrame 1280 720 1920 1080 recentClickSt
        (some pinchHand) (11 / 10)).1.thumbs_up_active = false) :=
  ⟨by norm_num [is_thumbs_up, pinchHand],
    by norm_num [pinch_engaged, thumbPt, indexPt, pyInt, calculate_distance_sq,
      CLICK_DISTANCE, pinchHand],
    rfl,
    by norm_num [recentClickSt, DOUBLE_CLICK_TIMEOUT],
    rapid_third_pinch_fires_nothing 1280 720 1920 1080 pinchHand recentClickSt (11 / 10)
      (by norm_num [is_thumbs_up, pinchHand])
      (by norm_num [pinch_engaged, thumbPt, indexPt, pyInt, calculate_distance_sq,
        CLICK_DISTANCE, pinchHand])
      rfl
      (by norm_num [recentClickSt, DOUBLE_CLICK_TIMEOUT])⟩

/-- Witness for the claim C2 theorem: pinch frames at times 1, 1.1 and
1.5 from the fresh initial state fire a single click, then a double
click with the counter reset to 0, then a fresh single click. -/
theorem click_debounce_witness :
    is_thumbs_up pinchHand 1280 720 = false ∧
    pinch_engaged (thumbPt pinchHand 1280 720) (indexPt pinchHand 1280 720) = true ∧
    (initState 1920 1080).last_click_time = 0 ∧
    DOUBLE_CLICK_TIMEOUT < (1 : ℚ) ∧
    (11 : ℚ) / 10 - 1 < DOUBLE_CLICK_TIMEOUT ∧
    DOUBLE_CLICK_TIMEOUT < (3 : ℚ) / 2 - 11 / 10 ∧
    (clickActs (processFrame 1280 720 1920 1080 (initState 1920 1080)
        (some pinchHand) 1).2 = [HMAction.click] ∧
     (processFrame 1280 720 1920 1080 (initState 1920 1080)
        (some pinchHand) 1).1.click_count = 1 ∧
     clickActs (processFrame 1280 720 1920 1080 (processFrame 1280 720 1920 1080
        (initState 1920 1080) (some pinchHand) 1).1
        (some pinchHand) (11 / 10)).2 = [HMAction.doubleClick] ∧
     (processFrame 1280 720 1920 1080 (processFrame 1280 720 1920 1080
        (initState 1920 1080) (some pinchHand) 1).1
        (some pinchHand) (11 / 10)).1.click_count = 0 ∧
     clickActs (processFrame 1280 720 1920 1080 (processFrame 1280 720 1920 1080
        (processFrame 1280 720 1920 1080 (initState 1920 1080) (some pinchHand) 1).1
        (some pinchHand) (11 / 10)).1 (some pinchHand) (3 / 2)).2 = [HMAction.click] ∧
     (processFrame 1280 720 1920 1080 (processFrame 1280 720 1920 1080
        (processFrame 1280 720 1920 1080 (initState 1920 1080) (some pinchHand) 1).1
        (some pinchHand) (11 / 10)).1 (some pinchHand) (3 / 2)).1.click_count = 1) :=
  ⟨by norm_num [is_thumbs_up, pinchHand],
    by norm_num [pinch_engaged, thumbPt, indexPt, pyInt, calculate_distance_sq,
      CLICK_DISTANCE, pinchHand],
    rfl,
    by norm_num [DOUBLE_CLICK_TIMEOUT],
    by norm_num [DOUBLE_CLICK_TIMEOUT],
    by norm_num [DOUBLE_CLICK_TIMEOUT],
    click_debounce_single_double_single 1280 720 1920 1080 pinchHand
      (by norm_num [is_thumbs_up, pinchHand])
      (by norm_num [pinch_engaged, thumbPt, indexPt, pyInt, calculate_distance_sq,
        CLICK_DISTANCE, pinchHand])
      (initState 1920 1080) rfl 1 (11 / 10) (3 / 2)
      (by norm_num [DOUBLE_CLICK_TIMEOUT])
      (by norm_num [DOUBLE_CLICK_TIMEOUT])
      (by norm_num [DOUBLE_CLICK_TIMEOUT])⟩

/-- Witness for the claim C6 theorem: a non-thumbs-up hand at time 5,
the frame-time list [1, 2], target 10, start 0 and two iteration
steps. -/
theorem cursor_smoothing_witness :
    is_thumbs_up pinchHand 1280 720 = false ∧
    ((processFrame 1280 720 1920 1080 (initState 1920 1080) (some pinchHand) 5).1.last_mouse_x
        = (initState 1920 1080).last_mouse_x * (1 - MOUSE_SMOOTHING)
          + np_interp pinchHand.thumb_tip.x (1 / 10) (9 / 10) 0 1920 * MOUSE_SMOOTHING ∧
     (processFrame 1280 720 1920 1080 (initState 1920 1080) (some pinchHand) 5).1.last_mouse_y
        = (initState 1920 1080).last_mouse_y * (1 - MOUSE_SMOOTHING)
          + np_interp pinchHand.thumb_tip.y (1 / 10) (9 / 10) 0 1080 * MOUSE_SMOOTHING ∧
     (run 1280 720 1920 1080 (initState 1920 1080)
        (([1, 2] : List ℚ).map fun u => (u, some pinchHand))).1.last_mouse_x
        = smoothIter (np_interp pinchHand.thumb_tip.x (1 / 10) (9 / 10) 0 1920)
            (initState 1920 1080).last_mouse_x ([1, 2] : List ℚ).length ∧
     smoothIter 10 10 2 = 10 ∧
     smoothIter 10 0 2 - 10 = (4 / 5) ^ 2 * ((0 : ℚ) - 10) ∧
     |smoothIter 10 0 (2 + 1) - 10| ≤ |smoothIter 10 0 2 - (10 : ℚ)|) :=
  ⟨by norm_num [is_thumbs_up, pinchHand],
    cursor_smoothing_ema 1280 720 1920 1080 pinchHand
      (by norm_num [is_thumbs_up, pinchHand])
      (initState 1920 1080) 5 [1, 2] 10 0 2⟩
